import Mathlib

/-
  Verification of the ServiceManager dependency-graph engine (graphd/graph.c)
  and unit state machine (restartd/unit.c).

  The C sources are shallowly embedded: vertices are indexed by natural
  numbers in a list, mutation is explicit state passing, emitted notes are
  collected in lists, and recursion that the C code bounds only by graph
  shape is bounded here by an explicit fuel parameter (result none means the
  fuel ran out, or that an assert in the C source would have fired / the C
  code would have exhibited undefined behaviour; the individual definitions
  say which).
-/

namespace ServiceManager

/-! ## Graph data model (graphd.h / graph.c) -/

inductive vertex_type_t
  | V_SVC
  | V_INST
  | V_DEPGROUP
deriving DecidableEq, Repr

inductive dg_type_t
  | RequireAll
  | RequireAny
  | OptionalAll
  | ExcludeAll
deriving DecidableEq, Repr

/-- S16DependencyGroupRestartOnCondition: enum values 0..4 in the source. -/
inductive restart_on_t
  | RNone
  | RError
  | RRestart
  | RRefresh
  | RAny
deriving DecidableEq, Repr

/-- The numeric value of the enum constant in the C source
(kS16RestartOnNone = 0 ... kS16RestartOnAny = 4), used where the C code
compares restart conditions with integer comparison. -/
def restart_on_t.toNat : restart_on_t → Nat
  | .RNone => 0
  | .RError => 1
  | .RRestart => 2
  | .RRefresh => 3
  | .RAny => 4

inductive vtx_state_t
  | Uninitialised
  | Disabled
  | Offline
  | Online
  | Degraded
  | Maintenance
deriving DecidableEq, Repr

/-- One vertex of the dependency graph. Edge lists hold the indices of the
target vertices (an edge object in C stores from/to pointers; the from
pointer is always the owning vertex, so only the to index is kept). -/
structure vertex_t where
  vtype : vertex_type_t
  dg_type : dg_type_t
  restart_on : restart_on_t
  state : vtx_state_t
  is_setup : Bool
  is_enabled : Bool
  to_offline : Bool
  to_disable : Bool
  dependencies : List Nat
  dependents : List Nat
deriving DecidableEq, Repr

structure graph_t where
  vertices : List vertex_t
deriving DecidableEq, Repr

/-- Placeholder vertex for out-of-range indices (the C code would
dereference a dangling pointer; theorems carry in-range hypotheses where
the distinction matters). -/
def vdefault : vertex_t :=
  { vtype := .V_SVC, dg_type := .RequireAll, restart_on := .RAny,
    state := .Uninitialised, is_setup := false, is_enabled := false,
    to_offline := false, to_disable := false,
    dependencies := [], dependents := [] }

def graph_t.vtx (g : graph_t) (i : Nat) : vertex_t :=
  g.vertices.getD i vdefault

def graph_t.setv (g : graph_t) (i : Nat) (v : vertex_t) : graph_t :=
  ⟨g.vertices.set i v⟩

def graph_t.set_state (g : graph_t) (i : Nat) (s : vtx_state_t) : graph_t :=
  g.setv i { g.vtx i with state := s }

def graph_t.set_to_offline (g : graph_t) (i : Nat) (b : Bool) : graph_t :=
  g.setv i { g.vtx i with to_offline := b }

def graph_t.set_to_disable (g : graph_t) (i : Nat) (b : Bool) : graph_t :=
  g.setv i { g.vtx i with to_disable := b }

/-- vtx_is_running (graph.c:116). -/
def vtx_is_running (v : vertex_t) : Bool :=
  match v.state with
  | .Online => true
  | .Degraded => true
  | _ => false

/-! ## Satisfiability evaluator (graph.c:325-546) -/

inductive satisfied_t
  | SATISFIED
  | UNSATISFIED
  | UNSATISFIABLE
deriving DecidableEq, Repr

/-- Conversion applied by the C compiler when a satisfied_t value (enum
constants 0, 1, 2) is stored into a variable of type bool: any nonzero
value becomes true. -/
def satisfied_as_bool : satisfied_t → Bool
  | .SATISFIED => false
  | _ => true

/-- Conversion applied when a bool is returned from a function whose return
type is satisfied_t: false is 0 = SATISFIED, true is 1 = UNSATISFIED. -/
def bool_as_satisfied : Bool → satisfied_t
  | false => .SATISFIED
  | true => .UNSATISFIED

/-- The accumulator step shared by the fold loops in depgroup_is_satisfied:
if (esat != SATISFIED) sat = (sat == UNSATISFIABLE) ? UNSATISFIABLE : esat. -/
def sat_fold_upd (sat esat : satisfied_t) : satisfied_t :=
  if esat ≠ .SATISFIED then
    (if sat = .UNSATISFIABLE then .UNSATISFIABLE else esat)
  else sat

/-- vtx_inst_satisfies_exclusion (graph.c:405-429). Result none models the
assert (v->type == V_INST) firing. The function does not recurse. -/
def vtx_inst_satisfies_exclusion (g : graph_t) (i : Nat) : Option satisfied_t :=
  let v := g.vtx i
  if v.vtype ≠ .V_INST then none
  else if v.is_setup = false then some .SATISFIED
  else
    match v.state with
    | .Uninitialised => some .UNSATISFIED
    | .Offline => some .UNSATISFIED
    | .Maintenance => some .SATISFIED
    | .Disabled => some .SATISFIED
    | .Online => some (if v.is_enabled then .UNSATISFIABLE else .UNSATISFIED)
    | .Degraded => some (if v.is_enabled then .UNSATISFIABLE else .UNSATISFIED)

/-- Inner loop of the kS16ExcludeAll case (graph.c:530-538): for a service
target dv, the source iterates over the edges of dv but passes dv itself -
not the edge target ddv - to vtx_inst_satisfies_exclusion, once per edge. -/
def sat_exclude_svc (g : graph_t) (d : Nat) (ds : List Nat)
    (sat : satisfied_t) : Option satisfied_t :=
  match ds with
  | [] => some sat
  | _ :: rest => do
      let esat ← vtx_inst_satisfies_exclusion g d
      sat_exclude_svc g d rest (sat_fold_upd sat esat)

/-- The kS16ExcludeAll case of depgroup_is_satisfied (graph.c:513-542).
Result none models the assert (dv->type != V_DEPGROUP), or the inner
assert inside vtx_inst_satisfies_exclusion. This branch performs no
recursive satisfiability call, so it needs no fuel. -/
def sat_exclude_all (g : graph_t) (ds : List Nat)
    (sat : satisfied_t) : Option satisfied_t :=
  match ds with
  | [] => some sat
  | d :: rest =>
      let dv := g.vtx d
      if dv.vtype = .V_DEPGROUP then none
      else if dv.vtype = .V_INST then do
        let esat ← vtx_inst_satisfies_exclusion g d
        sat_exclude_all g rest (sat_fold_upd sat esat)
      else do
        let sat1 ← sat_exclude_svc g d dv.dependencies sat
        sat_exclude_all g rest sat1

mutual

/-- vtx_satisfies (graph.c:431-437). -/
def vtx_satisfies (g : graph_t) (fuel : Nat) (i : Nat) (recurse : Bool) :
    Option satisfied_t :=
  match fuel with
  | 0 => none
  | fuel1 + 1 =>
      if (g.vtx i).vtype = .V_INST then
        vtx_inst_satisfies g (fuel1 + 1) i recurse
      else
        depgroup_is_satisfied g fuel1 i recurse
termination_by (fuel, 1, 0)

/-- vtx_inst_satisfies (graph.c:343-373). none models assert failure or
fuel exhaustion. -/
def vtx_inst_satisfies (g : graph_t) (fuel : Nat) (i : Nat) (recurse : Bool) :
    Option satisfied_t :=
  match fuel with
  | 0 => none
  | fuel1 + 1 =>
      let v := g.vtx i
      if v.vtype ≠ .V_INST then none
      else if ¬(v.is_setup = true ∧ v.is_enabled = true) then some .UNSATISFIABLE
      else
        match v.state with
        | .Uninitialised => some .UNSATISFIED
        | .Disabled => some .UNSATISFIABLE
        | .Offline =>
            if recurse = false then some .UNSATISFIED
            else do
              let s ← depgroup_is_satisfied g fuel1 i recurse
              pure (if s = .UNSATISFIABLE then .UNSATISFIABLE else .UNSATISFIED)
        | .Maintenance => some .UNSATISFIABLE
        | .Online => some .SATISFIED
        | .Degraded => some .SATISFIED
termination_by (fuel, 0, 0)

/-- vtx_inst_satisfies_optional (graph.c:375-403). -/
def vtx_inst_satisfies_optional (g : graph_t) (fuel : Nat) (i : Nat)
    (recurse : Bool) : Option satisfied_t :=
  match fuel with
  | 0 => none
  | fuel1 + 1 =>
      let v := g.vtx i
      if v.vtype ≠ .V_INST then none
      else if v.is_setup = false then some .SATISFIED
      else
        match v.state with
        | .Uninitialised => some .UNSATISFIED
        | .Offline =>
            if recurse = false then some .UNSATISFIED
            else do
              let s ← depgroup_is_satisfied g fuel1 i recurse
              pure (if s = .UNSATISFIABLE then .SATISFIED else .UNSATISFIED)
        | .Disabled => some .SATISFIED
        | .Maintenance => some .SATISFIED
        | .Online => some .SATISFIED
        | .Degraded => some .SATISFIED
termination_by (fuel, 0, 0)

/-- depgroup_is_satisfied (graph.c:439-546), dispatch on dg_type. -/
def depgroup_is_satisfied (g : graph_t) (fuel : Nat) (i : Nat)
    (recurse : Bool) : Option satisfied_t :=
  let v := g.vtx i
  match v.dg_type with
  | .RequireAll => sat_require_all g fuel recurse v.dependencies .SATISFIED
  | .RequireAny =>
      if v.dependencies = [] then some .SATISFIED
      else sat_require_any g fuel recurse v.dependencies
        (satisfied_as_bool .UNSATISFIABLE)
  | .OptionalAll => sat_optional_all g fuel recurse v.dependencies .SATISFIED
  | .ExcludeAll => sat_exclude_all g v.dependencies .SATISFIED
termination_by (fuel, 4, 0)

/-- Fold loop of the kS16RequireAll case (graph.c:443-455). -/
def sat_require_all (g : graph_t) (fuel : Nat) (recurse : Bool)
    (ds : List Nat) (sat : satisfied_t) : Option satisfied_t :=
  match ds with
  | [] => some sat
  | d :: rest => do
      let esat ← vtx_satisfies g fuel d recurse
      sat_require_all g fuel recurse rest (sat_fold_upd sat esat)
termination_by (fuel, 3, ds.length)

/-- Loop of the kS16RequireAny case (graph.c:457-474). The local variable
sat is declared bool in the source, so UNSATISFIABLE (2) is truncated to
true on initialisation and on assignment, and the final return converts
the bool back to a satisfied_t. -/
def sat_require_any (g : graph_t) (fuel : Nat) (recurse : Bool)
    (ds : List Nat) (sat : Bool) : Option satisfied_t :=
  match ds with
  | [] => some (bool_as_satisfied sat)
  | d :: rest => do
      let esat ← vtx_satisfies g fuel d recurse
      if esat = .SATISFIED then some .SATISFIED
      else
        sat_require_any g fuel recurse rest
          (if esat = .UNSATISFIED then satisfied_as_bool esat else sat)
termination_by (fuel, 3, ds.length)

/-- Fold loop of the kS16OptionalAll case (graph.c:476-511).
none models the assert (dv->type != V_DEPGROUP). -/
def sat_optional_all (g : graph_t) (fuel : Nat) (recurse : Bool)
    (ds : List Nat) (sat : satisfied_t) : Option satisfied_t :=
  match ds with
  | [] => some sat
  | d :: rest =>
      let dv := g.vtx d
      if dv.vtype = .V_DEPGROUP then none
      else if dv.vtype = .V_INST then do
        let esat ← vtx_inst_satisfies_optional g fuel d recurse
        sat_optional_all g fuel recurse rest (sat_fold_upd sat esat)
      else do
        let sat1 ← sat_optional_svc g fuel recurse dv.dependencies sat
        sat_optional_all g fuel recurse rest sat1
termination_by (fuel, 3, ds.length)

/-- Inner loop of the OptionalAll case over a service target's edges
(graph.c:493-502); here the source correctly passes the edge target ddv. -/
def sat_optional_svc (g : graph_t) (fuel : Nat) (recurse : Bool)
    (ds : List Nat) (sat : satisfied_t) : Option satisfied_t :=
  match ds with
  | [] => some sat
  | dd :: rest => do
      let esat ← vtx_inst_satisfies_optional g fuel dd recurse
      sat_optional_svc g fuel recurse rest (sat_fold_upd sat esat)
termination_by (fuel, 2, ds.length)

end

/-- vtx_inst_can_come_up (graph.c:337-341). The && chain short-circuits,
so depgroup_is_satisfied is only evaluated when the flag tests pass. -/
def vtx_inst_can_come_up (g : graph_t) (fuel : Nat) (i : Nat) : Option Bool :=
  let v := g.vtx i
  if v.is_enabled = true ∧ v.to_offline = false ∧ v.to_disable = false then do
    let s ← depgroup_is_satisfied g fuel i true
    pure (decide (s = .SATISFIED))
  else
    some false

/-! ## C1: RequireAny with every child UNSATISFIABLE

Failing input: a RequireAny dependency group whose single child instance is
Disabled (hence UNSATISFIABLE). Vertex 0 is the group, vertex 1 the child. -/

def c1_group : vertex_t :=
  { vtype := .V_DEPGROUP, dg_type := .RequireAny, restart_on := .RAny,
    state := .Uninitialised, is_setup := true, is_enabled := true,
    to_offline := false, to_disable := false,
    dependencies := [1], dependents := [] }

def c1_inst : vertex_t :=
  { vtype := .V_INST, dg_type := .RequireAll, restart_on := .RAny,
    state := .Disabled, is_setup := true, is_enabled := true,
    to_offline := false, to_disable := false,
    dependencies := [], dependents := [0] }

def gC1 : graph_t := ⟨[c1_group, c1_inst]⟩

/-- C1: the claim states that a RequireAny group whose children are all
UNSATISFIABLE evaluates to UNSATISFIABLE. On the code this fails: the
accumulator of the RequireAny loop is declared bool, so the initial value
UNSATISFIABLE (2) is truncated to true, and the final conversion back to
satisfied_t yields UNSATISFIED (1). Here the only child of the group
evaluates to UNSATISFIABLE, yet the group evaluates to UNSATISFIED, at
every fuel large enough for the evaluation to complete. -/
theorem c1_require_any_all_unsatisfiable_evaluates_unsatisfied :
    (∀ fuel : Nat, depgroup_is_satisfied gC1 (fuel + 1) 0 true =
      some satisfied_t.UNSATISFIED)
    ∧ vtx_satisfies gC1 1 1 true = some satisfied_t.UNSATISFIABLE := by
  constructor
  · intro fuel
    simp [depgroup_is_satisfied, sat_require_any, vtx_satisfies,
      vtx_inst_satisfies, gC1, c1_group, c1_inst, graph_t.vtx,
      satisfied_as_bool, bool_as_satisfied]
  · simp [vtx_satisfies, vtx_inst_satisfies, gC1, c1_group, c1_inst,
      graph_t.vtx]

/-! ## C5: ExcludeAll over a Service target

Failing input: an ExcludeAll dependency group (vertex 0) whose target is a
Service (vertex 1) with one dependency edge to an Instance (vertex 2) that
is Online and enabled. -/

def c5_group : vertex_t :=
  { vtype := .V_DEPGROUP, dg_type := .ExcludeAll, restart_on := .RNone,
    state := .Uninitialised, is_setup := true, is_enabled := true,
    to_offline := false, to_disable := false,
    dependencies := [1], dependents := [] }

def c5_svc : vertex_t :=
  { vtype := .V_SVC, dg_type := .RequireAll, restart_on := .RAny,
    state := .Uninitialised, is_setup := true, is_enabled := true,
    to_offline := false, to_disable := false,
    dependencies := [2], dependents := [0] }

def c5_inst : vertex_t :=
  { vtype := .V_INST, dg_type := .RequireAll, restart_on := .RAny,
    state := .Online, is_setup := true, is_enabled := true,
    to_offline := false, to_disable := false,
    dependencies := [], dependents := [1] }

def gC5 : graph_t := ⟨[c5_group, c5_svc, c5_inst]⟩

/-- C5: the claim states that an ExcludeAll group with a Service target
applies vtx_inst_satisfies_exclusion to each Instance reached through the
Service's dependency edges. The code instead passes the Service vertex
itself to vtx_inst_satisfies_exclusion, whose assert (v->type == V_INST)
then fires (modeled as none), at every fuel (the ExcludeAll branch makes no
fuelled call). Applying the exclusion rule to the Service aborts, while
applying it to the Instance - as the claim describes - would give
UNSATISFIABLE. -/
theorem c5_exclude_all_service_expansion_aborts :
    (∀ fuel : Nat, depgroup_is_satisfied gC5 fuel 0 true = none)
    ∧ vtx_inst_satisfies_exclusion gC5 1 = none
    ∧ vtx_inst_satisfies_exclusion gC5 2 = some satisfied_t.UNSATISFIABLE := by
  refine ⟨fun fuel => ?_, rfl, rfl⟩
  simp [depgroup_is_satisfied, sat_exclude_all, sat_exclude_svc,
    vtx_inst_satisfies_exclusion, gC5, c5_group, c5_svc, c5_inst,
    graph_t.vtx]

/-! ## Reachability and dependency insertion (graph.c:121-184) -/

mutual

/-- vtx_is_reachable_internal (graph.c:121-151). Returns the C function's
return value (the continue flag) together with the updated seen and pathTo
lists. A vertex already in seen returns false, which makes the caller
break out of its loop over the remaining siblings. -/
def vtx_is_reachable_internal (g : graph_t) (fuel : Nat) (v vto : Nat)
    (seen pathTo : List Nat) : Option (Bool × List Nat × List Nat) :=
  match fuel with
  | 0 => none
  | fuel + 1 =>
      if v ∈ seen then some (false, seen, pathTo)
      else
        let seen1 := v :: seen
        if (g.vtx v).dg_type = .ExcludeAll then some (false, seen1, pathTo)
        else if v = vto then some (false, seen1, vto :: pathTo)
        else do
          let (cont, seen2, path2) ←
            reach_loop g fuel (g.vtx v).dependencies vto seen1 pathTo
          pure (cont, seen2, if path2 = [] then path2 else v :: path2)
termination_by structural fuel

/-- The edge loop of vtx_is_reachable_internal (graph.c:140-145):
cont = recurse(child); if (!cont) break. -/
def reach_loop (g : graph_t) (fuel : Nat) (ds : List Nat) (vto : Nat)
    (seen pathTo : List Nat) : Option (Bool × List Nat × List Nat) :=
  match fuel with
  | 0 => none
  | fuel + 1 =>
      match ds with
      | [] => some (true, seen, pathTo)
      | d :: rest => do
          let (cont, seen1, path1) ←
            vtx_is_reachable_internal g fuel d vto seen pathTo
          if cont then reach_loop g fuel rest vto seen1 path1
          else pure (false, seen1, path1)
termination_by structural fuel

end

/-- vtx_is_reachable (graph.c:153-165): runs the internal DFS with a fresh
seen list and reports reachability as non-emptiness of pathTo. -/
def vtx_is_reachable (g : graph_t) (fuel : Nat) (vfrom vto : Nat) :
    Option (Bool × List Nat) := do
  let (_, _, pathTo) ← vtx_is_reachable_internal g fuel vfrom vto [] []
  pure (decide (pathTo ≠ []), pathTo)

/-- vtx_edge_add (graph.c:63-67): inserts the symmetric edge pair. -/
def vtx_edge_add (g : graph_t) (v vto : Nat) : graph_t :=
  let g1 := g.setv v
    { g.vtx v with dependencies := (g.vtx v).dependencies ++ [vto] }
  g1.setv vto
    { g1.vtx vto with dependents := (g1.vtx vto).dependents ++ [v] }

/-- vtx_dependency_add (graph.c:172-184): rejects with 1 and leaves the
graph unchanged if vtx_is_reachable (to, v) holds, else adds the edge pair
and returns 0. -/
def vtx_dependency_add (g : graph_t) (fuel : Nat) (v vto : Nat) :
    Option (Nat × graph_t × List Nat) := do
  let (r, path) ← vtx_is_reachable g fuel vto v
  if r then pure (1, g, path)
  else pure (0, vtx_edge_add g v vto, path)

/-! ## C2: dependency_add versus actual reachability -/

/-- Modelled from the spec: evidence of reachability through dependency
edges. A chain a0 :: a1 :: ... :: ak is a dependency path when each
consecutive pair is a dependency edge and no vertex on it is an ExcludeAll
dependency group (the spec's reachable short-circuits through ExcludeAll,
so such vertices are excluded to make the evidence unambiguous). -/
def dep_chain : graph_t → List Nat → Bool
  | _, [] => false
  | g, [a] => decide ((g.vtx a).dg_type ≠ .ExcludeAll)
  | g, a :: b :: rest =>
      decide ((g.vtx a).dg_type ≠ .ExcludeAll)
      && decide (b ∈ (g.vtx a).dependencies)
      && dep_chain g (b :: rest)

/-- C2 failing input: a diamond-with-tail graph. Vertex 0 depends on 1 and
2; vertex 1 depends on 3; vertex 2 depends on 3 and 4 (in that order).
Vertex 4 is reachable from 0 via 0 -> 2 -> 4. -/
def c2_vertex (deps depts : List Nat) : vertex_t :=
  { vtype := .V_INST, dg_type := .RequireAll, restart_on := .RAny,
    state := .Offline, is_setup := true, is_enabled := true,
    to_offline := false, to_disable := false,
    dependencies := deps, dependents := depts }

def gC2 : graph_t :=
  ⟨[c2_vertex [1, 2] [], c2_vertex [3] [0], c2_vertex [3, 4] [0],
    c2_vertex [] [1, 2], c2_vertex [] [2]]⟩

/-- C2: the claim states that vtx_dependency_add (u, v) rejects with 1
exactly when v can reach u through dependency edges. On this graph vertex
0 reaches vertex 4 (path 0 -> 2 -> 4, no ExcludeAll on it), yet
vtx_dependency_add (4, 0) returns 0 and adds the symmetric edge pair,
creating the cycle 0 -> 2 -> 4 -> 0: during the DFS from 0, the revisit of
vertex 3 (already seen through vertex 1) returns false, which breaks the
loop over the siblings of vertex 2 before edge 2 -> 4 is explored. This
also contradicts the doc comment of vtx_is_reachable in the source. -/
theorem c2_cycle_check_misses_reachable_vertex :
    dep_chain gC2 [0, 2, 4] = true
    ∧ vtx_is_reachable gC2 20 0 4 = some (false, [])
    ∧ vtx_dependency_add gC2 20 4 0 = some (0, vtx_edge_add gC2 4 0, [])
    ∧ 0 ∈ ((vtx_edge_add gC2 4 0).vtx 4).dependencies
    ∧ 4 ∈ ((vtx_edge_add gC2 4 0).vtx 0).dependents := by
  decide

/-! ## Notes and propagation (graph.c:69-102, 628-895) -/

inductive sc_type_t
  | SC_ONLINE
  | SC_OFFLINE
  | SC_DISABLED
deriving DecidableEq, Repr

/-- A state-change note as queued by vtx_online / vtx_offline / vtx_disable
(graph.c:69-102): the sub-type, the path (vertex index) and the reason. -/
structure s16note_t where
  sc : sc_type_t
  path : Nat
  reason : Nat
deriving DecidableEq, Repr

mutual

/-- vtx_can_go_down (graph.c:748-765). The C recursion terminates only by
graph shape; fuel bounds the recursion depth (none = fuel ran out). -/
def vtx_can_go_down (g : graph_t) (fuel : Nat) (i : Nat) (root : Bool) :
    Option Bool :=
  match fuel with
  | 0 => none
  | fuel1 + 1 => do
      let ok ← cgd_dependents g fuel1 ((g.vtx i).dependents)
      if ok = false then pure false
      else
        let v := g.vtx i
        if v.vtype = .V_INST ∧ (v.state = .Online ∨ v.state = .Degraded)
            ∧ root = false then
          pure false
        else
          pure true
termination_by (fuel, 0, 0)

/-- The dependent loop of vtx_can_go_down (graph.c:750-758): a dependent
that is an Instance without to_offline is skipped; otherwise a recursive
call returning false makes the whole function return false at once. -/
def cgd_dependents (g : graph_t) (fuel : Nat) (ds : List Nat) : Option Bool :=
  match ds with
  | [] => some true
  | d :: rest =>
      if (g.vtx d).vtype = .V_INST ∧ (g.vtx d).to_offline = false then
        cgd_dependents g fuel rest
      else do
        let b ← vtx_can_go_down g fuel d false
        if b = true then cgd_dependents g fuel rest else pure false
termination_by (fuel, 1, ds.length)

end

mutual

/-- vtx_offline_dependency (graph.c:781-795). Emits SC_OFFLINE notes; cf is
the fuel handed to vtx_can_go_down. -/
def vtx_offline_dependency (g : graph_t) (fuel cf : Nat) (i : Nat)
    (reason : Nat) : Option (List s16note_t) :=
  match fuel with
  | 0 => none
  | fuel1 + 1 =>
      let v := g.vtx i
      if v.vtype = .V_INST ∧ v.to_offline = false then some []
      else if v.vtype = .V_INST then do
        let b ← vtx_can_go_down g cf i true
        pure (if b = true then [⟨.SC_OFFLINE, i, reason⟩] else [])
      else
        odep_list g fuel1 cf v.dependencies reason
termination_by (fuel, 0, 0)

/-- vtx_dependencies_do (v, vtx_offline_dependency, reason): the walk over
a dependency list, concatenating the notes each entry emits. -/
def odep_list (g : graph_t) (fuel cf : Nat) (ds : List Nat) (reason : Nat) :
    Option (List s16note_t) :=
  match ds with
  | [] => some []
  | d :: rest => do
      let a ← vtx_offline_dependency g fuel cf d reason
      let b ← odep_list g fuel cf rest reason
      pure (a ++ b)
termination_by (fuel, 1, ds.length)

end

mutual

/-- vtx_notify_start (graph.c:628-664). cf is the fuel handed to
vtx_inst_can_come_up. An emitted SC_ONLINE note carries reason 0 (the
source passes literal 0 to s16note_new); recursion into the dependents of
a depgroup or service replaces the reason by that vertex's restart_on. -/
def vtx_notify_start (g : graph_t) (fuel cf : Nat) (i : Nat) (reason : Nat) :
    Option (List s16note_t) :=
  match fuel with
  | 0 => none
  | fuel1 + 1 =>
      let v := g.vtx i
      if v.vtype = .V_INST then do
        let c ← vtx_inst_can_come_up g cf i
        if c = true then
          if vtx_is_running v = true then pure []
          else pure [⟨.SC_ONLINE, i, 0⟩]
        else pure []
      else
        nstart_list g fuel1 cf v.dependents v.restart_on.toNat
termination_by (fuel, 0, 0)

/-- vtx_dependents_do (v, vtx_notify_start, reason). -/
def nstart_list (g : graph_t) (fuel cf : Nat) (ds : List Nat)
    (reason : Nat) : Option (List s16note_t) :=
  match ds with
  | [] => some []
  | d :: rest => do
      let a ← vtx_notify_start g fuel cf d reason
      let b ← nstart_list g fuel cf rest reason
      pure (a ++ b)
termination_by (fuel, 1, ds.length)

end

mutual

/-- vtx_notify_stop (graph.c:666-712). An ExcludeAll depgroup, and a
depgroup whose restart_on is numerically below the reason, do not
propagate; otherwise depgroups and services recurse into dependents, and a
running instance emits SC_OFFLINE with the propagated reason. -/
def vtx_notify_stop (g : graph_t) (fuel : Nat) (i : Nat) (reason : Nat) :
    Option (List s16note_t) :=
  match fuel with
  | 0 => none
  | fuel1 + 1 =>
      let v := g.vtx i
      match v.vtype with
      | .V_INST =>
          some (if vtx_is_running v = true then [⟨.SC_OFFLINE, i, reason⟩]
            else [])
      | .V_DEPGROUP =>
          if v.dg_type = .ExcludeAll then some []
          else if v.restart_on.toNat < reason then some []
          else nstop_list g fuel1 v.dependents reason
      | .V_SVC => nstop_list g fuel1 v.dependents reason
termination_by (fuel, 0, 0)

/-- vtx_dependents_do (v, vtx_notify_stop, reason). -/
def nstop_list (g : graph_t) (fuel : Nat) (ds : List Nat) (reason : Nat) :
    Option (List s16note_t) :=
  match ds with
  | [] => some []
  | d :: rest => do
      let a ← vtx_notify_stop g fuel d reason
      let b ← nstop_list g fuel rest reason
      pure (a ++ b)
termination_by (fuel, 1, ds.length)

end

mutual

/-- vtx_notify_misc (graph.c:714-722). -/
def vtx_notify_misc (g : graph_t) (fuel cf : Nat) (i : Nat) (reason : Nat) :
    Option (List s16note_t) :=
  match fuel with
  | 0 => none
  | fuel1 + 1 => do
      let first ←
        if (g.vtx i).vtype = .V_INST then do
          let c ← vtx_inst_can_come_up g cf i
          pure (if c = true ∧ vtx_is_running (g.vtx i) = false then
            [(⟨.SC_ONLINE, i, reason⟩ : s16note_t)] else [])
        else pure []
      let rest ← nmisc_list g fuel1 cf (g.vtx i).dependents reason
      pure (first ++ rest)
termination_by (fuel, 0, 0)

/-- vtx_dependents_do (v, vtx_notify_misc, reason). -/
def nmisc_list (g : graph_t) (fuel cf : Nat) (ds : List Nat) (reason : Nat) :
    Option (List s16note_t) :=
  match ds with
  | [] => some []
  | d :: rest => do
      let a ← vtx_notify_misc g fuel cf d reason
      let b ← nmisc_list g fuel cf rest reason
      pure (a ++ b)
termination_by (fuel, 1, ds.length)

end

/-- vtx_process_state_change (graph.c:840-883). Returns the updated graph
and the list of notes queued during processing, in queueing order. -/
def vtx_process_state_change (g : graph_t) (fuel : Nat) (i : Nat)
    (ty : sc_type_t) (reason : Nat) : Option (graph_t × List s16note_t) :=
  let prior := (g.vtx i).to_offline
  match ty with
  | .SC_ONLINE =>
      let g1 := g.set_state i .Online
      do
        let ns ← nstart_list g1 fuel fuel ((g1.vtx i).dependents) reason
        pure (g1, ns)
  | .SC_OFFLINE =>
      let g1 := (g.set_state i .Offline).set_to_offline i false
      do
        let n1 ←
          if prior = true then do
            let w ← odep_list g1 fuel fuel ((g1.vtx i).dependencies) reason
            pure (w ++ (if (g1.vtx i).to_disable = true then
              [(⟨.SC_DISABLED, i, reason⟩ : s16note_t)] else []))
          else do
            let c ← vtx_inst_can_come_up g1 fuel i
            pure (if c = true then [(⟨.SC_ONLINE, i, reason⟩ : s16note_t)]
              else [])
        let n2 ← nstop_list g1 fuel ((g1.vtx i).dependents) reason
        pure (g1, n1 ++ n2)
  | .SC_DISABLED =>
      let g1 := ((g.set_to_offline i false).set_to_disable i false).set_state
        i .Disabled
      do
        let ns ← nmisc_list g1 fuel fuel ((g1.vtx i).dependents) reason
        pure (g1, ns)

/-! ## C4: stop propagation through a DepGroup -/

/-- The chain None < Error < Restart < Refresh < Any from the spec. -/
def restart_order : List restart_on_t :=
  [.RNone, .RError, .RRestart, .RRefresh, .RAny]

/-- Modelled from the spec: comparison of restart intensities by position
in the chain None < Error < Restart < Refresh < Any. -/
def restart_spec_le (a b : restart_on_t) : Prop :=
  restart_order.indexOf a ≤ restart_order.indexOf b

instance : DecidablePred fun p : restart_on_t × restart_on_t =>
    restart_spec_le p.1 p.2 := fun _ => Nat.decLe _ _

instance (a b : restart_on_t) : Decidable (restart_spec_le a b) :=
  Nat.decLe _ _

/-- C4: a stop notification with intensity r arriving at a DepGroup vertex
is passed to the dependents exactly when the group is not ExcludeAll and
its restart_on is at least r in the spec ordering; otherwise nothing is
emitted at all. -/
theorem c4_depgroup_stop_gate (g : graph_t) (fuel i : Nat)
    (r : restart_on_t) (h : (g.vtx i).vtype = .V_DEPGROUP) :
    vtx_notify_stop g (fuel + 1) i r.toNat =
      (if (g.vtx i).dg_type ≠ .ExcludeAll
          ∧ restart_spec_le r ((g.vtx i).restart_on)
       then nstop_list g fuel ((g.vtx i).dependents) r.toNat
       else some []) := by
  simp only [vtx_notify_stop, h]
  by_cases hdg : (g.vtx i).dg_type = .ExcludeAll
  · simp [hdg]
  · have hcmp : (((g.vtx i).restart_on).toNat < r.toNat)
        ↔ ¬ restart_spec_le r ((g.vtx i).restart_on) := by
      cases (g.vtx i).restart_on <;> cases r <;> decide
    by_cases hlt : ((g.vtx i).restart_on).toNat < r.toNat
    · simp [hdg, hlt, hcmp.mp hlt]
    · simp [hdg, hlt, (not_not.mp (fun hn => hlt (hcmp.mpr hn)))]

/-- Witness for C4 at a concrete input: the RequireAny group of gC1 has
restart_on Any, so a Restart-intensity stop is propagated. -/
theorem c4_depgroup_stop_gate_witness :
    vtx_notify_stop gC1 3 0 restart_on_t.RRestart.toNat =
      (if (gC1.vtx 0).dg_type ≠ .ExcludeAll
          ∧ restart_spec_le .RRestart ((gC1.vtx 0).restart_on)
       then nstop_list gC1 2 ((gC1.vtx 0).dependents)
         restart_on_t.RRestart.toNat
       else some []) :=
  c4_depgroup_stop_gate gC1 2 0 .RRestart rfl

/-! ## Helper lemmas about vertex updates -/

theorem list_set_getD_self {α : Type} (l : List α) (i : Nat) (d : α) :
    l.set i (l.getD i d) = l := by
  induction l generalizing i with
  | nil => simp
  | cons a t ih =>
      cases i with
      | zero => simp
      | succ j => simp only [List.getD_cons_succ, List.set_cons_succ,
          List.cons.injEq, true_and]; exact ih j

theorem graph_setv_self (g : graph_t) (i : Nat) :
    g.setv i (g.vtx i) = g := by
  cases g with
  | mk l =>
      show graph_t.mk (l.set i (l.getD i vdefault)) = graph_t.mk l
      rw [list_set_getD_self]

theorem set_state_of_eq (g : graph_t) (i : Nat) (s : vtx_state_t)
    (h : (g.vtx i).state = s) : g.set_state i s = g := by
  have hv : { g.vtx i with state := s } = g.vtx i := by
    cases hgv : g.vtx i
    cases h
    rw [hgv]
  rw [graph_t.set_state, hv, graph_setv_self]

/-! ## C7: duplicate SC_ONLINE for an already-Online vertex -/

def c7_v0 : vertex_t :=
  { vtype := .V_INST, dg_type := .RequireAll, restart_on := .RAny,
    state := .Online, is_setup := true, is_enabled := true,
    to_offline := false, to_disable := false,
    dependencies := [], dependents := [1] }

def c7_v1 : vertex_t :=
  { vtype := .V_INST, dg_type := .RequireAll, restart_on := .RAny,
    state := .Offline, is_setup := true, is_enabled := true,
    to_offline := false, to_disable := false,
    dependencies := [], dependents := [] }

def gC7 : graph_t := ⟨[c7_v0, c7_v1]⟩

/-- C7 counterexample: vertex 0 is already Online, its dependent vertex 1
is an Instance that can come up and is not running. Processing a second
SC_ONLINE note for vertex 0 leaves the graph unchanged but emits a fresh
SC_ONLINE note for the dependent, contradicting the claim that no new
SC_ONLINE note is emitted for any dependent. -/
theorem c7_duplicate_online_emits_for_dependent :
    (gC7.vtx 0).state = .Online
    ∧ vtx_process_state_change gC7 2 0 .SC_ONLINE 3 =
        some (gC7, [s16note_t.mk .SC_ONLINE 1 0]) := by
  constructor
  · rfl
  · simp [vtx_process_state_change, nstart_list, vtx_notify_start,
      vtx_inst_can_come_up, depgroup_is_satisfied, sat_require_all,
      vtx_is_running, graph_t.set_state, graph_t.setv, graph_t.vtx,
      gC7, c7_v0, c7_v1]

/-- Membership in the output of the vtx_notify_start walk: an eligible
direct dependent always gets its SC_ONLINE note (with reason 0). -/
theorem nstart_list_mem (g : graph_t) (fuel cf : Nat) (ds : List Nat)
    (rsn : Nat) (w : List s16note_t)
    (h : nstart_list g fuel cf ds rsn = some w) :
    ∀ d ∈ ds, (g.vtx d).vtype = .V_INST →
      vtx_inst_can_come_up g cf d = some true →
      vtx_is_running (g.vtx d) = false →
      s16note_t.mk .SC_ONLINE d 0 ∈ w := by
  induction ds generalizing w with
  | nil => simp
  | cons a rest ih =>
      intro d hd hinst hcc hrun
      rw [nstart_list] at h
      cases ha : vtx_notify_start g fuel cf a rsn with
      | none => rw [ha] at h; simp at h
      | some na =>
          cases hb : nstart_list g fuel cf rest rsn with
          | none => rw [ha, hb] at h; simp at h
          | some nb =>
              rw [ha, hb] at h
              simp at h
              subst h
              rcases List.mem_cons.mp hd with rfl | hd1
              · refine List.mem_append_left _ ?_
                cases fuel with
                | zero => rw [vtx_notify_start] at ha; simp at ha
                | succ f =>
                    rw [vtx_notify_start] at ha
                    simp [hinst, hcc, hrun] at ha
                    simp [← ha]
              · exact List.mem_append_right _ (ih nb hb d hd1 hinst hcc hrun)

/-- C7 amended: processing SC_ONLINE for an already-Online vertex leaves
the graph (all states and flags) unchanged, but it re-runs the dependent
notification instead of deduplicating: SC_ONLINE (with reason 0) is
re-emitted for every direct dependent Instance that can come up and is
not running. -/
theorem c7_amended_duplicate_online_renotifies (g : graph_t)
    (fuel i rsn : Nat) (hOn : (g.vtx i).state = .Online)
    (g1 : graph_t) (notes : List s16note_t)
    (h : vtx_process_state_change g fuel i .SC_ONLINE rsn = some (g1, notes)) :
    g1 = g ∧
    ∀ d ∈ (g.vtx i).dependents, (g.vtx d).vtype = .V_INST →
      vtx_inst_can_come_up g fuel d = some true →
      vtx_is_running (g.vtx d) = false →
      s16note_t.mk .SC_ONLINE d 0 ∈ notes := by
  rw [vtx_process_state_change, set_state_of_eq g i .Online hOn] at h
  cases hn : nstart_list g fuel fuel ((g.vtx i).dependents) rsn with
  | none => rw [hn] at h; simp at h
  | some ns =>
      rw [hn] at h
      simp at h
      obtain ⟨rfl, rfl⟩ := h
      exact ⟨rfl, nstart_list_mem g fuel fuel _ rsn ns hn⟩

/-- Witness for the amended C7 theorem at the concrete graph gC7. -/
theorem c7_amended_witness :
    gC7 = gC7 ∧
    ∀ d ∈ (gC7.vtx 0).dependents, (gC7.vtx d).vtype = .V_INST →
      vtx_inst_can_come_up gC7 2 d = some true →
      vtx_is_running (gC7.vtx d) = false →
      s16note_t.mk .SC_ONLINE d 0 ∈ [s16note_t.mk .SC_ONLINE 1 0] :=
  c7_amended_duplicate_online_renotifies gC7 2 0 3 rfl gC7
    [s16note_t.mk .SC_ONLINE 1 0]
    (by simp [vtx_process_state_change, nstart_list, vtx_notify_start,
      vtx_inst_can_come_up, depgroup_is_satisfied, sat_require_all,
      vtx_is_running, graph_t.set_state, graph_t.setv, graph_t.vtx,
      gC7, c7_v0, c7_v1])

/-! ## C6: vtx_can_go_down -/

mutual

/-- Modelled from the claim C6 wording: every dependent must either be an
Instance with to_offline set, or recursively satisfy can_go_down; a
running Instance asked non-rootly refuses. Differs from vtx_can_go_down
only in the polarity of the to_offline test of clause (a). -/
def can_go_down_claim (g : graph_t) (fuel : Nat) (i : Nat) (root : Bool) :
    Option Bool :=
  match fuel with
  | 0 => none
  | fuel1 + 1 => do
      let ok ← cgdc_dependents g fuel1 ((g.vtx i).dependents)
      if ok = false then pure false
      else
        let v := g.vtx i
        if v.vtype = .V_INST ∧ (v.state = .Online ∨ v.state = .Degraded)
            ∧ root = false then
          pure false
        else
          pure true
termination_by (fuel, 0, 0)

/-- Dependent loop of the claim-modelled can_go_down: clause (a) accepts
an Instance whose to_offline IS set. -/
def cgdc_dependents (g : graph_t) (fuel : Nat) (ds : List Nat) :
    Option Bool :=
  match ds with
  | [] => some true
  | d :: rest =>
      if (g.vtx d).vtype = .V_INST ∧ (g.vtx d).to_offline = true then
        cgdc_dependents g fuel rest
      else do
        let b ← can_go_down_claim g fuel d false
        if b = true then cgdc_dependents g fuel rest else pure false
termination_by (fuel, 1, ds.length)

end

def c6_v0 : vertex_t :=
  { vtype := .V_SVC, dg_type := .RequireAll, restart_on := .RAny,
    state := .Uninitialised, is_setup := true, is_enabled := true,
    to_offline := false, to_disable := false,
    dependencies := [], dependents := [1] }

def c6_v1 : vertex_t :=
  { vtype := .V_INST, dg_type := .RequireAll, restart_on := .RAny,
    state := .Online, is_setup := true, is_enabled := true,
    to_offline := true, to_disable := false,
    dependencies := [], dependents := [] }

def gC6 : graph_t := ⟨[c6_v0, c6_v1]⟩

/-- C6 counterexample: vertex 0 has a single dependent, an Online Instance
with to_offline set. Under the claim, clause (a) accepts that dependent
outright, so can_go_down(0, root) would be true; the code instead recurses
into the dependent (clause (a) of the code skips only Instances with
to_offline CLEAR), and the recursive call returns false because the
dependent is a running Instance asked non-rootly. -/
theorem c6_can_go_down_polarity_counterexample :
    vtx_can_go_down gC6 3 0 true = some false
    ∧ can_go_down_claim gC6 3 0 true = some true := by
  constructor <;>
    simp [vtx_can_go_down, cgd_dependents, can_go_down_claim,
      cgdc_dependents, gC6, c6_v0, c6_v1, graph_t.vtx]

/-- The declarative characterisation of what vtx_can_go_down computes:
every dependent is either an Instance with to_offline clear (skipped by
the loop) or recursively goes down, and v itself is not a running Instance
being asked non-rootly. -/
inductive GoesDown (g : graph_t) : Nat → Bool → Prop
  | intro (i : Nat) (root : Bool)
      (hdeps : ∀ d ∈ (g.vtx i).dependents,
        ¬((g.vtx d).vtype = .V_INST ∧ (g.vtx d).to_offline = false) →
        GoesDown g d false)
      (hself : ¬((g.vtx i).vtype = .V_INST
        ∧ ((g.vtx i).state = .Online ∨ (g.vtx i).state = .Degraded)
        ∧ root = false)) :
      GoesDown g i root

theorem cgd_dependents_true (g : graph_t) (fuel : Nat) (ds : List Nat)
    (h : cgd_dependents g fuel ds = some true) :
    ∀ d ∈ ds, ((g.vtx d).vtype = .V_INST ∧ (g.vtx d).to_offline = false)
      ∨ vtx_can_go_down g fuel d false = some true := by
  induction ds with
  | nil => simp
  | cons a rest ih =>
      intro d hd
      rw [cgd_dependents] at h
      by_cases ha : (g.vtx a).vtype = .V_INST ∧ (g.vtx a).to_offline = false
      · rw [if_pos ha] at h
        rcases List.mem_cons.mp hd with rfl | hd1
        · exact Or.inl ha
        · exact ih h d hd1
      · rw [if_neg ha] at h
        cases hb : vtx_can_go_down g fuel a false with
        | none => rw [hb] at h; simp at h
        | some b =>
            rw [hb] at h
            cases b with
            | false => simp at h
            | true =>
                simp at h
                rcases List.mem_cons.mp hd with rfl | hd1
                · exact Or.inr hb
                · exact ih h d hd1

theorem cgd_dependents_false (g : graph_t) (fuel : Nat) (ds : List Nat)
    (h : cgd_dependents g fuel ds = some false) :
    ∃ d ∈ ds, ¬((g.vtx d).vtype = .V_INST ∧ (g.vtx d).to_offline = false)
      ∧ vtx_can_go_down g fuel d false = some false := by
  induction ds with
  | nil => rw [cgd_dependents] at h; simp at h
  | cons a rest ih =>
      rw [cgd_dependents] at h
      by_cases ha : (g.vtx a).vtype = .V_INST ∧ (g.vtx a).to_offline = false
      · rw [if_pos ha] at h
        obtain ⟨d, hd, hprop⟩ := ih h
        exact ⟨d, List.mem_cons_of_mem a hd, hprop⟩
      · rw [if_neg ha] at h
        cases hb : vtx_can_go_down g fuel a false with
        | none => rw [hb] at h; simp at h
        | some b =>
            rw [hb] at h
            cases b with
            | true =>
                simp at h
                obtain ⟨d, hd, hprop⟩ := ih h
                exact ⟨d, List.mem_cons_of_mem a hd, hprop⟩
            | false => exact ⟨a, List.mem_cons_self a rest, ha, hb⟩

/-- C6 amended: vtx_can_go_down(v, root) returns true iff every dependent
of v either is an Instance with to_offline CLEAR (such dependents are
skipped), or recursively satisfies can_go_down; and additionally, when
root is false and v is an Instance in state Online or Degraded, the result
is false. Stated as soundness of both boolean outcomes of the fuelled code
against the declarative GoesDown predicate. -/
theorem c6_amended_can_go_down_characterisation (g : graph_t) :
    ∀ (fuel : Nat) (i : Nat) (root : Bool),
      (vtx_can_go_down g fuel i root = some true → GoesDown g i root)
      ∧ (vtx_can_go_down g fuel i root = some false → ¬ GoesDown g i root) := by
  intro fuel
  induction fuel with
  | zero =>
      intro i root
      constructor <;> intro h <;> rw [vtx_can_go_down] at h <;> simp at h
  | succ f ih =>
      intro i root
      constructor
      · intro h
        rw [vtx_can_go_down] at h
        cases hc : cgd_dependents g f ((g.vtx i).dependents) with
        | none => rw [hc] at h; simp at h
        | some ok =>
            rw [hc] at h
            cases ok with
            | false => simp at h
            | true =>
                simp only [Bool.true_eq_false, if_false, reduceIte] at h
                by_cases hself : (g.vtx i).vtype = .V_INST
                    ∧ ((g.vtx i).state = .Online ∨ (g.vtx i).state = .Degraded)
                    ∧ root = false
                · rw [if_pos hself] at h; simp at h
                · refine GoesDown.intro i root ?_ hself
                  intro d hd hna
                  rcases cgd_dependents_true g f _ hc d hd with hskip | hrec
                  · exact (hna hskip).elim
                  · exact (ih d false).1 hrec
      · intro h hgd
        cases hgd with
        | intro _ _ hdeps hself =>
            rw [vtx_can_go_down] at h
            cases hc : cgd_dependents g f ((g.vtx i).dependents) with
            | none => rw [hc] at h; simp at h
            | some ok =>
                rw [hc] at h
                cases ok with
                | false =>
                    obtain ⟨d, hd, hna, hfalse⟩ := cgd_dependents_false g f _ hc
                    exact (ih d false).2 hfalse (hdeps d hd hna)
                | true =>
                    simp only [Bool.true_eq_false, if_false, reduceIte] at h
                    by_cases hs : (g.vtx i).vtype = .V_INST
                        ∧ ((g.vtx i).state = .Online ∨ (g.vtx i).state = .Degraded)
                        ∧ root = false
                    · exact hself hs
                    · rw [if_neg hs] at h; simp at h

def gW6 : graph_t :=
  ⟨[{ vtype := .V_SVC, dg_type := .RequireAll, restart_on := .RAny,
      state := .Uninitialised, is_setup := true, is_enabled := true,
      to_offline := false, to_disable := false,
      dependencies := [], dependents := [] }]⟩

/-- Witness for the amended C6 theorem: a vertex without dependents can go
down, and the characterisation derives GoesDown for it. -/
theorem c6_amended_witness : GoesDown gW6 0 true :=
  (c6_amended_can_go_down_characterisation gW6 1 0 true).1
    (by simp [vtx_can_go_down, cgd_dependents, gW6, graph_t.vtx])

/-! ## C3: processing an SC_OFFLINE note -/

theorem list_getD_set_self {α : Type} (l : List α) (i : Nat) (v d : α)
    (hi : i < l.length) : (l.set i v).getD i d = v := by
  induction l generalizing i with
  | nil => simp at hi
  | cons a t ih =>
      cases i with
      | zero => simp
      | succ j =>
          simp only [List.set_cons_succ, List.getD_cons_succ]
          exact ih j (by simpa using hi)

theorem graph_setv_vtx_self (g : graph_t) (i : Nat) (v : vertex_t)
    (hi : i < g.vertices.length) : (g.setv i v).vtx i = v :=
  list_getD_set_self g.vertices i v vdefault hi

theorem graph_setv_length (g : graph_t) (i : Nat) (v : vertex_t) :
    (g.setv i v).vertices.length = g.vertices.length := by
  simp [graph_t.setv]

/-- The vertex at i after the SC_OFFLINE mutations: state Offline and
to_offline cleared, everything else as before. -/
theorem sc_offline_vtx_self (g : graph_t) (i : Nat)
    (hi : i < g.vertices.length) :
    ((g.set_state i .Offline).set_to_offline i false).vtx i =
      { g.vtx i with state := .Offline, to_offline := false } := by
  have h1 : (g.set_state i .Offline).vtx i = { g.vtx i with state := .Offline } :=
    graph_setv_vtx_self g i _ hi
  have h2 : ((g.set_state i .Offline).set_to_offline i false).vtx i =
      { (g.set_state i .Offline).vtx i with to_offline := false } := by
    refine graph_setv_vtx_self _ i _ ?_
    rw [graph_t.set_state, graph_setv_length]
    exact hi
  rw [h2, h1]

/-- A walk path as traversed by vtx_offline_dependency: from a to b along
dependency edges, every vertex strictly before b being a non-Instance
(the walk recurses through depgroups and services and stops at
instances), with the length of the path as an index. -/
inductive OffPathN (g : graph_t) : Nat → Nat → Nat → Prop
  | refl (a : Nat) : OffPathN g a a 0
  | step (a b c n : Nat) : (g.vtx a).vtype ≠ .V_INST →
      b ∈ (g.vtx a).dependencies → OffPathN g b c n → OffPathN g a c (n + 1)

/-- What a note emitted by the offline-dependency walk looks like
(statement abbreviation used by the soundness lemmas). -/
def odep_note_spec (g : graph_t) (cf rsn : Nat) (nt : s16note_t) (j : Nat) :
    Prop :=
  nt = s16note_t.mk .SC_OFFLINE j rsn
  ∧ (g.vtx j).vtype = .V_INST ∧ (g.vtx j).to_offline = true
  ∧ vtx_can_go_down g cf j true = some true

theorem odep_list_sound_of (g : graph_t) (cf rsn fuel : Nat)
    (hs : ∀ i w, vtx_offline_dependency g fuel cf i rsn = some w →
      ∀ nt ∈ w, ∃ j, odep_note_spec g cf rsn nt j ∧ ∃ n, OffPathN g i j n) :
    ∀ ds w, odep_list g fuel cf ds rsn = some w →
      ∀ nt ∈ w, ∃ j, odep_note_spec g cf rsn nt j
        ∧ ∃ d ∈ ds, ∃ n, OffPathN g d j n := by
  intro ds
  induction ds with
  | nil =>
      intro w h
      rw [odep_list] at h
      simp at h
      subst h
      simp
  | cons a rest ih =>
      intro w h
      rw [odep_list] at h
      cases ha : vtx_offline_dependency g fuel cf a rsn with
      | none => rw [ha] at h; simp at h
      | some na =>
          cases hb : odep_list g fuel cf rest rsn with
          | none => rw [ha, hb] at h; simp at h
          | some nb =>
              rw [ha, hb] at h
              simp at h
              subst h
              intro nt hnt
              rcases List.mem_append.mp hnt with hna | hnb
              · obtain ⟨j, hspec, n, hpath⟩ := hs a na ha nt hna
                exact ⟨j, hspec, a, List.mem_cons_self a rest, n, hpath⟩
              · obtain ⟨j, hspec, d, hd, n, hpath⟩ := ih nb hb nt hnb
                exact ⟨j, hspec, d, List.mem_cons_of_mem a hd, n, hpath⟩

theorem odep_sound (g : graph_t) (cf rsn : Nat) :
    ∀ (fuel : Nat) (i : Nat) (w : List s16note_t),
      vtx_offline_dependency g fuel cf i rsn = some w →
      ∀ nt ∈ w, ∃ j, odep_note_spec g cf rsn nt j ∧ ∃ n, OffPathN g i j n := by
  intro fuel
  induction fuel with
  | zero =>
      intro i w h
      rw [vtx_offline_dependency] at h
      simp at h
  | succ f ihf =>
      intro i w h
      rw [vtx_offline_dependency] at h
      by_cases h1 : (g.vtx i).vtype = .V_INST ∧ (g.vtx i).to_offline = false
      · rw [if_pos h1] at h
        simp at h
        subst h
        simp
      · rw [if_neg h1] at h
        by_cases h2 : (g.vtx i).vtype = .V_INST
        · rw [if_pos h2] at h
          cases hb : vtx_can_go_down g cf i true with
          | none => rw [hb] at h; simp at h
          | some b =>
              rw [hb] at h
              cases b with
              | false => simp at h; subst h; simp
              | true =>
                  simp at h
                  subst h
                  intro nt hnt
                  have hoff : (g.vtx i).to_offline = true := by
                    cases hoffc : (g.vtx i).to_offline with
                    | false => exact absurd ⟨h2, hoffc⟩ h1
                    | true => rfl
                  refine ⟨i, ⟨?_, h2, hoff, hb⟩, 0, OffPathN.refl i⟩
                  simpa using hnt
        · rw [if_neg h2] at h
          intro nt hnt
          obtain ⟨j, hspec, d, hd, n, hpath⟩ :=
            odep_list_sound_of g cf rsn f ihf ((g.vtx i).dependencies) w h nt hnt
          exact ⟨j, hspec, n + 1, OffPathN.step i d j n h2 hd hpath⟩

theorem odep_list_complete_of (g : graph_t) (cf rsn fuel : Nat)
    (hs : ∀ i w, vtx_offline_dependency g fuel cf i rsn = some w →
      ∀ j n, OffPathN g i j n → n < fuel →
        (g.vtx j).vtype = .V_INST → (g.vtx j).to_offline = true →
        vtx_can_go_down g cf j true = some true →
        s16note_t.mk .SC_OFFLINE j rsn ∈ w) :
    ∀ ds w, odep_list g fuel cf ds rsn = some w →
      ∀ d ∈ ds, ∀ j n, OffPathN g d j n → n < fuel →
        (g.vtx j).vtype = .V_INST → (g.vtx j).to_offline = true →
        vtx_can_go_down g cf j true = some true →
        s16note_t.mk .SC_OFFLINE j rsn ∈ w := by
  intro ds
  induction ds with
  | nil => simp
  | cons a rest ih =>
      intro w h d hd j n hpath hn hj hoff hcgd
      rw [odep_list] at h
      cases ha : vtx_offline_dependency g fuel cf a rsn with
      | none => rw [ha] at h; simp at h
      | some na =>
          cases hb : odep_list g fuel cf rest rsn with
          | none => rw [ha, hb] at h; simp at h
          | some nb =>
              rw [ha, hb] at h
              simp at h
              subst h
              rcases List.mem_cons.mp hd with rfl | hd1
              · exact List.mem_append_left _
                  (hs d na ha j n hpath hn hj hoff hcgd)
              · exact List.mem_append_right _
                  (ih nb hb d hd1 j n hpath hn hj hoff hcgd)

theorem odep_complete (g : graph_t) (cf rsn : Nat) :
    ∀ (fuel : Nat) (i : Nat) (w : List s16note_t),
      vtx_offline_dependency g fuel cf i rsn = some w →
      ∀ j n, OffPathN g i j n → n < fuel →
        (g.vtx j).vtype = .V_INST → (g.vtx j).to_offline = true →
        vtx_can_go_down g cf j true = some true →
        s16note_t.mk .SC_OFFLINE j rsn ∈ w := by
  intro fuel
  induction fuel with
  | zero =>
      intro i w h
      rw [vtx_offline_dependency] at h
      simp at h
  | succ f ihf =>
      intro i w h j n hpath hn hj hoff hcgd
      rw [vtx_offline_dependency] at h
      cases hpath with
      | refl =>
          rw [if_neg (by simp [hj, hoff]), if_pos hj, hcgd] at h
          simp at h
          subst h
          simp
      | step a b c n1 hna hb hrest =>
          rw [if_neg (by simp [hna]), if_neg hna] at h
          exact odep_list_complete_of g cf rsn f ihf ((g.vtx i).dependencies)
            w h b hb j n1 hrest (by omega) hj hoff hcgd

/-- C3: processing SC_OFFLINE(v, reason) sets v.state to Offline and clears
v.to_offline; when to_offline was set before the note, the handler walks
the dependencies, emitting SC_OFFLINE for exactly those instances that are
reached through non-instance vertices, are themselves pending-offline and
can_go_down (soundness for every emitted note, completeness for every walk
path shorter than the fuel), and additionally emits SC_DISABLED when
to_disable is set; when to_offline was not set and v can_come_up, it emits
SC_ONLINE for v. -/
theorem c3_sc_offline_processing (g : graph_t) (fuel i rsn : Nat)
    (hi : i < g.vertices.length) (g1 : graph_t) (notes : List s16note_t)
    (h : vtx_process_state_change g fuel i .SC_OFFLINE rsn = some (g1, notes)) :
    (g1.vtx i).state = .Offline ∧ (g1.vtx i).to_offline = false
    ∧ ((g.vtx i).to_offline = true → (g.vtx i).to_disable = true →
        s16note_t.mk .SC_DISABLED i rsn ∈ notes)
    ∧ ((g.vtx i).to_offline = false →
        vtx_inst_can_come_up g1 fuel i = some true →
        s16note_t.mk .SC_ONLINE i rsn ∈ notes)
    ∧ ((g.vtx i).to_offline = true →
        ∃ w rest, notes = w ++ rest
          ∧ odep_list g1 fuel fuel ((g1.vtx i).dependencies) rsn = some w
          ∧ (∀ nt ∈ w, ∃ j, odep_note_spec g1 fuel rsn nt j
              ∧ ∃ d ∈ (g1.vtx i).dependencies, ∃ n, OffPathN g1 d j n)
          ∧ (∀ d ∈ (g1.vtx i).dependencies, ∀ j n, OffPathN g1 d j n →
              n < fuel → (g1.vtx j).vtype = .V_INST →
              (g1.vtx j).to_offline = true →
              vtx_can_go_down g1 fuel j true = some true →
              s16note_t.mk .SC_OFFLINE j rsn ∈ w)) := by
  simp only [vtx_process_state_change] at h
  set g2 := (g.set_state i .Offline).set_to_offline i false with hg2
  have hvtx : g2.vtx i = { g.vtx i with state := .Offline, to_offline := false } :=
    sc_offline_vtx_self g i hi
  cases hprior : (g.vtx i).to_offline with
  | true =>
      rw [hprior] at h
      simp only [if_true, reduceIte] at h
      cases hw : odep_list g2 fuel fuel ((g2.vtx i).dependencies) rsn with
      | none => rw [hw] at h; simp at h
      | some w =>
          rw [hw] at h
          cases hstop : nstop_list g2 fuel ((g2.vtx i).dependents) rsn with
          | none => rw [hstop] at h; simp at h
          | some n2 =>
              rw [hstop] at h
              simp at h
              obtain ⟨rfl, rfl⟩ := h
              refine ⟨by rw [hvtx], by rw [hvtx], ?_, ?_, ?_⟩
              · intro _ hdis
                have hdis2 : (g2.vtx i).to_disable = true := by
                  rw [hvtx]; exact hdis
                rw [if_pos hdis2]
                simp
              · intro hpf
                simp [hprior] at hpf
              · intro _
                refine ⟨w,
                  (if (g2.vtx i).to_disable = true then
                    [(⟨.SC_DISABLED, i, rsn⟩ : s16note_t)] else []) ++ n2,
                  by simp, hw,
                  odep_list_sound_of g2 fuel rsn fuel
                    (odep_sound g2 fuel rsn fuel) _ w hw,
                  odep_list_complete_of g2 fuel rsn fuel
                    (odep_complete g2 fuel rsn fuel) _ w hw⟩
  | false =>
      rw [hprior] at h
      simp only [Bool.false_eq_true, if_false, reduceIte] at h
      cases hcc : vtx_inst_can_come_up g2 fuel i with
      | none => rw [hcc] at h; simp at h
      | some c =>
          rw [hcc] at h
          cases hstop : nstop_list g2 fuel ((g2.vtx i).dependents) rsn with
          | none => rw [hstop] at h; simp at h
          | some n2 =>
              rw [hstop] at h
              simp at h
              obtain ⟨rfl, rfl⟩ := h
              refine ⟨by rw [hvtx], by rw [hvtx], ?_, ?_, ?_⟩
              · intro hpt
                simp [hprior] at hpt
              · intro _ hcct
                rw [hcc] at hcct
                obtain rfl : c = true := by simpa using hcct
                simp
              · intro hpt
                simp [hprior] at hpt

def w3_v0 : vertex_t :=
  { vtype := .V_INST, dg_type := .RequireAll, restart_on := .RAny,
    state := .Online, is_setup := true, is_enabled := true,
    to_offline := true, to_disable := true,
    dependencies := [1], dependents := [] }

def w3_v1 : vertex_t :=
  { vtype := .V_INST, dg_type := .RequireAll, restart_on := .RAny,
    state := .Online, is_setup := true, is_enabled := true,
    to_offline := true, to_disable := false,
    dependencies := [], dependents := [] }

def gW3 : graph_t := ⟨[w3_v0, w3_v1]⟩

def gW3x : graph_t :=
  ⟨[{ w3_v0 with state := .Offline, to_offline := false }, w3_v1]⟩

/-- Witness for C3 at a concrete input: vertex 0 pending offline and
pending disable with one pending-offline dependency. -/
theorem c3_sc_offline_witness :
    (gW3x.vtx 0).state = .Offline ∧ (gW3x.vtx 0).to_offline = false
    ∧ ((gW3.vtx 0).to_offline = true → (gW3.vtx 0).to_disable = true →
        s16note_t.mk .SC_DISABLED 0 2 ∈
          [s16note_t.mk .SC_OFFLINE 1 2, s16note_t.mk .SC_DISABLED 0 2])
    ∧ ((gW3.vtx 0).to_offline = false →
        vtx_inst_can_come_up gW3x 4 0 = some true →
        s16note_t.mk .SC_ONLINE 0 2 ∈
          [s16note_t.mk .SC_OFFLINE 1 2, s16note_t.mk .SC_DISABLED 0 2])
    ∧ ((gW3.vtx 0).to_offline = true →
        ∃ w rest,
          [s16note_t.mk .SC_OFFLINE 1 2, s16note_t.mk .SC_DISABLED 0 2]
            = w ++ rest
          ∧ odep_list gW3x 4 4 ((gW3x.vtx 0).dependencies) 2 = some w
          ∧ (∀ nt ∈ w, ∃ j, odep_note_spec gW3x 4 2 nt j
              ∧ ∃ d ∈ (gW3x.vtx 0).dependencies, ∃ n, OffPathN gW3x d j n)
          ∧ (∀ d ∈ (gW3x.vtx 0).dependencies, ∀ j n, OffPathN gW3x d j n →
              n < 4 → (gW3x.vtx j).vtype = .V_INST →
              (gW3x.vtx j).to_offline = true →
              vtx_can_go_down gW3x 4 j true = some true →
              s16note_t.mk .SC_OFFLINE j 2 ∈ w)) := by
  have h : vtx_process_state_change gW3 4 0 .SC_OFFLINE 2 =
      some (gW3x, [s16note_t.mk .SC_OFFLINE 1 2, s16note_t.mk .SC_DISABLED 0 2]) := by
    simp [vtx_process_state_change, odep_list, vtx_offline_dependency,
      vtx_can_go_down, cgd_dependents, nstop_list, graph_t.set_state,
      graph_t.set_to_offline, graph_t.setv, graph_t.vtx, gW3, gW3x,
      w3_v0, w3_v1]
  exact c3_sc_offline_processing gW3 4 0 2 (by simp [gW3]) gW3x
    [s16note_t.mk .SC_OFFLINE 1 2, s16note_t.mk .SC_DISABLED 0 2] h

/-! ## Unit state machine (restartd/unit.c)

The manager's timer set and process tracker are external collaborators:
timer registrations, deregistrations, sent signals and fork results are
recorded in an effect log, and the pids handed out by fork are drawn from
a queue in the machine state (a pid of 0 models fork failure, as in the
source). -/

inductive unit_state_t
  | UUninitialised
  | UOffline
  | US_PRESTART
  | US_START
  | US_POSTSTART
  | UOnline
  | US_STOP
  | US_STOPTERM
  | US_STOPKILL
  | US_POSTSTOP
  | UMaintenance
  | UNone
deriving DecidableEq, Repr

inductive unit_method_t
  | UM_PRESTART
  | UM_START
  | UM_POSTSTART
  | UM_STOP
  | UM_POSTSTOP
deriving DecidableEq, Repr

def unit_method_t.idx : unit_method_t → Nat
  | .UM_PRESTART => 0
  | .UM_START => 1
  | .UM_POSTSTART => 2
  | .UM_STOP => 3
  | .UM_POSTSTOP => 4

/-- state_to_S16ServiceMethodype (unit.c:74-84); the source returns -1 for
states without a method slot, modelled as none (using it to index
fail_cnt is undefined behaviour in C). -/
def state_to_S16ServiceMethodype : unit_state_t → Option unit_method_t
  | .US_PRESTART => some .UM_PRESTART
  | .US_START => some .UM_START
  | .US_POSTSTART => some .UM_POSTSTART
  | .US_STOP => some .UM_STOP
  | .US_POSTSTOP => some .UM_POSTSTOP
  | _ => none

inductive unit_type_t
  | U_SIMPLE
  | U_ONESHOT
  | U_FORKS
  | U_GROUP
  | U_NOTIFY
deriving DecidableEq, Repr

structure Unit_t where
  utype : unit_type_t
  state : unit_state_t
  target : unit_state_t
  main_pid : Nat
  secondary_pid : Nat
  pids : List Nat
  timer_id : Nat
  meth_restart_timer_id : Nat
  /-- fail_cnt[5], indexed by unit_method_t.idx. -/
  fail_cnt : List Nat
  /-- methods[5]: whether the method is defined, indexed likewise. -/
  methods : List Bool
  /-- whether unit->path equals S16PathOfRepository (). -/
  is_repo : Bool
deriving DecidableEq, Repr

def Unit_t.has_method (u : Unit_t) (m : unit_method_t) : Bool :=
  u.methods.getD m.idx false

def Unit_t.fail_of (u : Unit_t) (m : unit_method_t) : Nat :=
  u.fail_cnt.getD m.idx 0

def Unit_t.set_fail (u : Unit_t) (m : unit_method_t) (n : Nat) : Unit_t :=
  { u with fail_cnt := u.fail_cnt.set m.idx n }

/-- unit_stopping (unit.c:86-90). -/
def unit_stopping (u : Unit_t) : Bool :=
  match u.state with
  | .US_STOP => true
  | .US_STOPTERM => true
  | .US_STOPKILL => true
  | .US_POSTSTOP => true
  | _ => false

/-- unit_has_pid (unit.c:601-609). -/
def unit_has_pid (u : Unit_t) (pid : Nat) : Bool :=
  u.pids.contains pid

inductive cb_kind_t
  | timer_event_cb
  | restart_begin
deriving DecidableEq, Repr

inductive effect_t
  | timer_add (id msec : Nat) (cb : cb_kind_t)
  | timer_del (id : Nat)
  | forked (pid : Nat)
  | sig_sent (pid sig : Nat)
  | configd_came_up
deriving DecidableEq, Repr

structure MState where
  unit : Unit_t
  next_timer : Nat
  fork_queue : List Nat
  effects : List effect_t
deriving DecidableEq, Repr

def emit (st : MState) (e : effect_t) : MState :=
  { st with effects := st.effects ++ [e] }

/-- timerset_add: hands out a fresh timer id and records the
registration. -/
def timerset_add (st : MState) (msec : Nat) (cb : cb_kind_t) :
    Nat × MState :=
  let id := st.next_timer
  (id, emit { st with next_timer := id + 1 } (.timer_add id msec cb))

def timerset_del (st : MState) (id : Nat) : MState :=
  emit st (.timer_del id)

/-- unit_fork_and_register (unit.c:100-120): draws the next pid from the
fork queue; 0 (or an empty queue) is a fork failure; on success the pid is
watched and appended to unit->pids. -/
def unit_fork_and_register (st : MState) : Nat × MState :=
  match st.fork_queue with
  | [] => (0, st)
  | p :: q =>
      let st1 := { st with fork_queue := q }
      if p = 0 then (0, st1)
      else
        (p, emit { st1 with
          unit := { st1.unit with pids := st1.unit.pids ++ [p] } }
          (.forked p))

/-- unit_deregister_pid (unit.c:93-97). -/
def unit_deregister_pid (st : MState) (pid : Nat) : MState :=
  { st with unit := { st.unit with pids := st.unit.pids.erase pid } }

/-- Sends the given signal to every pid of the unit (the LL_each kill
loops of stopterm/stopkill). -/
def send_sig_all (st : MState) (sig : Nat) : MState :=
  st.unit.pids.foldl (fun s p => emit s (.sig_sent p sig)) st

/-- unit_enter_maintenance (unit.c:154-158). -/
def unit_enter_maintenance (st : MState) : MState :=
  { st with unit := { st.unit with state := .UMaintenance } }

/-- unit_enter_offline (unit.c:160-164). -/
def unit_enter_offline (st : MState) : MState :=
  { st with unit := { st.unit with state := .UOffline } }

/-- unit_enter_online (unit.c:246-252): notifies the manager when the unit
is the repository, and - notably - does not assign unit->state. -/
def unit_enter_online (st : MState) : MState :=
  if st.unit.is_repo then emit st .configd_came_up else st

/-- The operations of the mutually recursive entry-function family of
unit.c, dispatched by a single fuelled interpreter so that concrete runs
compute: op_state is unit_enter_state, op_purge is unit_purge_and_target,
and the remaining ops are the unit_enter_* functions. -/
inductive unit_op
  | op_state (s : unit_state_t)
  | op_purge
  | op_prestart
  | op_start
  | op_poststart
  | op_stop
  | op_stopterm
  | op_stopkill
deriving DecidableEq, Repr

def unit_run : MState → Nat → unit_op → Option MState
  | _, 0, _ => none
  /- unit_enter_state (unit.c:321-346). The switch has no case for the
  Stop, StopTerm, StopKill, PostStop or Uninitialised states: entering one
  of them this way does nothing. -/
  | st, fuel + 1, .op_state s =>
      match s with
      | .UOffline => some (unit_enter_offline st)
      | .UMaintenance => some (unit_enter_maintenance st)
      | .US_PRESTART => unit_run st fuel .op_prestart
      | .US_START => unit_run st fuel .op_start
      | .US_POSTSTART => unit_run st fuel .op_poststart
      | .UOnline => some (unit_enter_online st)
      | .UNone => some { st with unit := { st.unit with state := .UNone } }
      | _ => some st
  /- unit_purge_and_target (unit.c:124-134). -/
  | st, fuel + 1, .op_purge =>
      if st.unit.pids ≠ [] then unit_run st fuel .op_stop
      else unit_run st fuel (.op_state st.unit.target)
  /- unit_enter_prestart (unit.c:166-184). -/
  | st, fuel + 1, .op_prestart =>
      if st.unit.has_method .UM_PRESTART then
        let st := { st with unit := { st.unit with state := .US_PRESTART } }
        let (tid, st) := timerset_add st 2000 .timer_event_cb
        let st := { st with unit := { st.unit with timer_id := tid } }
        let (p, st) := unit_fork_and_register st
        let st := { st with unit := { st.unit with main_pid := p } }
        if p = 0 then
          unit_run
            { st with unit := { st.unit with target := .UMaintenance } }
            fuel .op_purge
        else some st
      else unit_run st fuel .op_start
  /- unit_enter_start (unit.c:186-225). -/
  | st, fuel + 1, .op_start =>
      let st := { st with unit := { st.unit with state := .US_START } }
      let (p, st) := unit_fork_and_register st
      let st := { st with unit := { st.unit with main_pid := p } }
      if p = 0 then
        unit_run { st with unit := { st.unit with target := .UMaintenance } }
          fuel .op_purge
      else if st.unit.utype = .U_SIMPLE ∨ st.unit.utype = .U_ONESHOT
          ∨ st.unit.utype = .U_GROUP then
        unit_run st fuel .op_poststart
      else
        let (tid, st) := timerset_add st 2000 .timer_event_cb
        some { st with unit := { st.unit with timer_id := tid } }
  /- unit_enter_poststart (unit.c:227-244). -/
  | st, fuel + 1, .op_poststart =>
      if st.unit.has_method .UM_POSTSTART then
        let st := { st with unit := { st.unit with state := .US_POSTSTART } }
        let (tid, st) := timerset_add st 2000 .timer_event_cb
        let st := { st with unit := { st.unit with timer_id := tid } }
        let (p, st) := unit_fork_and_register st
        let st := { st with unit := { st.unit with secondary_pid := p } }
        if p = 0 then
          unit_run
            { st with unit := { st.unit with target := .UMaintenance } }
            fuel .op_purge
        else some st
      else some (unit_enter_online st)
  /- unit_enter_stop (unit.c:254-275). -/
  | st, fuel + 1, .op_stop =>
      if st.unit.has_method .UM_STOP then
        let st := { st with unit := { st.unit with state := .US_STOP } }
        let (tid, st) := timerset_add st 2000 .timer_event_cb
        let st := { st with unit := { st.unit with timer_id := tid } }
        let (p, st) := unit_fork_and_register st
        let st := { st with unit := { st.unit with secondary_pid := p } }
        if p = 0 then
          unit_run
            { st with unit := { st.unit with target := .UMaintenance } }
            fuel .op_purge
        else some st
      else unit_run st fuel .op_stopterm
  /- unit_enter_stopterm (unit.c:277-295). -/
  | st, fuel + 1, .op_stopterm =>
      if st.unit.pids = [] then unit_run st fuel (.op_state st.unit.target)
      else
        let st := { st with unit := { st.unit with state := .US_STOPTERM } }
        let st := if st.unit.main_pid ≠ 0 then
          emit st (.sig_sent st.unit.main_pid 15) else st
        let (tid, st) := timerset_add st 2000 .timer_event_cb
        let st := { st with unit := { st.unit with timer_id := tid } }
        some (send_sig_all st 15)
  /- unit_enter_stopkill (unit.c:297-319). -/
  | st, fuel + 1, .op_stopkill =>
      if st.unit.pids = [] then unit_run st fuel (.op_state st.unit.target)
      else
        let st := { st with unit := { st.unit with state := .US_STOPKILL } }
        let st := if st.unit.main_pid ≠ 0 then
          emit st (.sig_sent st.unit.main_pid 9) else st
        let (tid, st) := timerset_add st 2000 .timer_event_cb
        let st := { st with unit := { st.unit with timer_id := tid } }
        some (send_sig_all st 9)

/-- unit_enter_state (unit.c:321-346). -/
def unit_enter_state (st : MState) (fuel : Nat) (s : unit_state_t) :
    Option MState :=
  unit_run st fuel (.op_state s)

/-- unit_purge_and_target (unit.c:124-134). -/
def unit_purge_and_target (st : MState) (fuel : Nat) : Option MState :=
  unit_run st fuel .op_purge

/-- unit_enter_prestart (unit.c:166-184). -/
def unit_enter_prestart (st : MState) (fuel : Nat) : Option MState :=
  unit_run st fuel .op_prestart

/-- unit_enter_start (unit.c:186-225). -/
def unit_enter_start (st : MState) (fuel : Nat) : Option MState :=
  unit_run st fuel .op_start

/-- unit_enter_poststart (unit.c:227-244). -/
def unit_enter_poststart (st : MState) (fuel : Nat) : Option MState :=
  unit_run st fuel .op_poststart

/-- unit_enter_stop (unit.c:254-275). -/
def unit_enter_stop (st : MState) (fuel : Nat) : Option MState :=
  unit_run st fuel .op_stop

/-- unit_enter_stopterm (unit.c:277-295). -/
def unit_enter_stopterm (st : MState) (fuel : Nat) : Option MState :=
  unit_run st fuel .op_stopterm

/-- unit_enter_stopkill (unit.c:297-319). -/
def unit_enter_stopkill (st : MState) (fuel : Nat) : Option MState :=
  unit_run st fuel .op_stopkill

/-- unit_retry_start (unit.c:145-152): sets target to None, purges, and
registers unit_restart_begin_cb - with a hard-coded delay of 500
milliseconds; the msecs parameter is not used by the body. -/
def unit_retry_start (st : MState) (msecs : Nat) (fuel : Nat) :
    Option MState := do
  let st := { st with unit := { st.unit with target := .UNone } }
  let st ← unit_purge_and_target st fuel
  let (tid, st) := timerset_add st 500 .restart_begin
  pure { st with unit := { st.unit with meth_restart_timer_id := tid } }

/-- unit_restart_begin_cb (unit.c:136-142). -/
def unit_restart_begin_cb (st : MState) (fuel : Nat) (id : Nat) :
    Option MState :=
  let st := { st with unit := { st.unit with meth_restart_timer_id := 0 } }
  let st := timerset_del st id
  unit_enter_prestart st fuel

/-- unit_timer_event (unit.c:521-582). -/
def unit_timer_event (st : MState) (fuel : Nat) (id : Nat) : Option MState :=
  let st := { st with unit := { st.unit with timer_id := 0 } }
  let st := timerset_del st id
  match st.unit.state with
  | .US_STOP => unit_enter_stopterm st fuel
  | .US_STOPTERM => some st
  | .US_STOPKILL => unit_enter_state st fuel st.unit.target
  | .US_PRESTART =>
      let cnt := st.unit.fail_of .UM_PRESTART + 1
      let st := { st with unit := st.unit.set_fail .UM_PRESTART cnt }
      if cnt > 5 then
        unit_purge_and_target
          { st with unit := { st.unit with target := .UMaintenance } } fuel
      else
        unit_purge_and_target
          { st with unit := { st.unit with target := .US_PRESTART } } fuel
  | .US_START =>
      let cnt := st.unit.fail_of .UM_PRESTART + 1
      let st := { st with unit := st.unit.set_fail .UM_PRESTART cnt }
      if cnt > 5 then
        unit_purge_and_target
          { st with unit := { st.unit with target := .UMaintenance } } fuel
      else
        unit_purge_and_target
          { st with unit := { st.unit with target := .US_PRESTART } } fuel
  | _ => some st

inductive pt_event_t
  | ev_child
  | ev_exit
deriving DecidableEq, Repr

/-- unit_ptevent (unit.c:348-519). The abnormal flag models
S16ExitWasAbnormal (info->flags); none models the undefined behaviour of
indexing fail_cnt with -1 (state without a method slot), or fuel running
out in a purge chain. -/
def unit_ptevent (st : MState) (fuel : Nat) (pid : Nat) (ev : pt_event_t)
    (abnormal : Bool) : Option MState :=
  let st :=
    match ev with
    | .ev_child =>
        if unit_has_pid st.unit pid then st
        else { st with unit := { st.unit with pids := st.unit.pids ++ [pid] } }
    | .ev_exit => unit_deregister_pid st pid
  if ev = .ev_exit ∧ unit_stopping st.unit = true then
    match st.unit.state with
    | .US_STOP =>
        if st.unit.pids = [] then
          unit_enter_stopterm (timerset_del st st.unit.timer_id) fuel
        else some st
    | .US_STOPTERM =>
        if st.unit.pids = [] then
          unit_enter_stopkill (timerset_del st st.unit.timer_id) fuel
        else some st
    | _ => some st
  else if ev = .ev_exit ∧ pid = st.unit.main_pid then
    let st := { st with unit := { st.unit with main_pid := 0 } }
    let st := if st.unit.timer_id ≠ 0 then timerset_del st st.unit.timer_id
      else st
    if abnormal then
      if st.unit.state = .UOnline then
        unit_purge_and_target
          { st with unit := { st.unit with target := .UOffline } } fuel
      else
        match state_to_S16ServiceMethodype st.unit.state with
        | none => none
        | some m =>
            let cnt := st.unit.fail_of m + 1
            let st := { st with unit := st.unit.set_fail m cnt }
            if cnt > 5 then
              unit_purge_and_target
                { st with unit := { st.unit with target := .UMaintenance } }
                fuel
            else
              unit_retry_start
                { st with unit := { st.unit with target := st.unit.state } }
                5000 fuel
    else
      match st.unit.state with
      | .US_PRESTART =>
          unit_purge_and_target
            { st with unit := { st.unit with target := .US_START } } fuel
      | .UOnline =>
          if st.unit.utype = .U_SIMPLE then
            unit_enter_stop
              { st with unit := { st.unit with target := .UOffline } } fuel
          else if st.unit.utype ≠ .U_GROUP ∧ st.unit.pids = [] then
            unit_enter_stop
              { st with unit := { st.unit with target := .UOffline } } fuel
          else some st
      | .US_POSTSTART =>
          if st.unit.utype = .U_SIMPLE then
            unit_enter_stop
              { st with unit := { st.unit with target := .UOffline } } fuel
          else if st.unit.utype ≠ .U_GROUP ∧ st.unit.pids = [] then
            unit_enter_stop
              { st with unit := { st.unit with target := .UOffline } } fuel
          else some st
      | _ => some st
  else if ev = .ev_exit ∧ pid = st.unit.secondary_pid then
    if st.unit.state = .US_POSTSTART then
      let st := if st.unit.timer_id ≠ 0 then timerset_del st st.unit.timer_id
        else st
      let st := { st with unit := { st.unit with secondary_pid := 0 } }
      if abnormal then
        match state_to_S16ServiceMethodype st.unit.state with
        | none => none
        | some m =>
            let cnt := st.unit.fail_of m + 1
            let st := { st with unit := st.unit.set_fail m cnt }
            if cnt > 5 then
              unit_purge_and_target
                { st with unit := { st.unit with target := .UMaintenance } }
                fuel
            else
              unit_retry_start
                { st with unit := { st.unit with target := .US_PRESTART } }
                5000 fuel
      else some (unit_enter_online st)
    else some st
  else some st

/-- unit_notify_ready (unit.c:584-591). -/
def unit_notify_ready (st : MState) (fuel : Nat) : Option MState :=
  if st.unit.state = .US_START then
    let st := timerset_del st st.unit.timer_id
    let st := { st with unit := { st.unit with timer_id := 0 } }
    unit_enter_poststart st fuel
  else some st

/-! ## C8: a persistently failing PreStart method -/

/-- One way an attempt of the PreStart method can fail: the forked process
exits abnormally, or the 2-second method timer fires first (in which case
the stop cascade kills the process and its exit is then observed). -/
inductive fail_mode_t
  | ab_exit
  | timeout
deriving DecidableEq, Repr

/-- Delivers one failure to a unit currently in PreStart: either the
abnormal exit of the method process, or the timer event followed by the
exit of the killed process. -/
def run_fail (st : MState) (m : fail_mode_t) : Option MState :=
  match m with
  | .ab_exit => unit_ptevent st 50 st.unit.main_pid .ev_exit true
  | .timeout => do
      let st1 ← unit_timer_event st 50 st.unit.timer_id
      unit_ptevent st1 50 st1.unit.main_pid .ev_exit true

/-- After an abnormal-exit failure the unit sits in the None state waiting
for unit_restart_begin_cb; firing that timer re-enters PreStart. After a
timeout failure the exit handling already re-entered PreStart. -/
def run_recover (st : MState) : Option MState :=
  if st.unit.state = .UNone then
    unit_restart_begin_cb st 50 st.unit.meth_restart_timer_id
  else some st

def run_attempts (st : MState) : List fail_mode_t → Option MState
  | [] => some st
  | m :: ms => do
      let st1 ← run_fail st m
      let st2 ← run_recover st1
      run_attempts st2 ms

/-- A unit with a PreStart method (and no Stop method), all failure
counters zero. -/
def c8_unit : Unit_t :=
  { utype := .U_SIMPLE, state := .UOffline, target := .UOffline,
    main_pid := 0, secondary_pid := 0, pids := [],
    timer_id := 0, meth_restart_timer_id := 0,
    fail_cnt := [0, 0, 0, 0, 0],
    methods := [true, false, false, false, false], is_repo := false }

/-- The unit is asked to come up (unit_msg RR_START enters PreStart); the
fork queue holds the pids of the successive method invocations. -/
def c8_start : Option MState :=
  unit_enter_prestart
    { unit := c8_unit, next_timer := 1,
      fork_queue := [11, 12, 13, 14, 15, 16], effects := [] } 50

def c8_run (ms : List fail_mode_t) : Option MState := do
  let st ← c8_start
  run_attempts st ms

def c8_state_after (ms : List fail_mode_t) : Option unit_state_t :=
  (c8_run ms).map fun st => st.unit.state

def c8_cnt_after (ms : List fail_mode_t) : Option Nat :=
  (c8_run ms).map fun st => st.unit.fail_of .UM_PRESTART

/-- C8: whichever way each attempt of the PreStart method fails (abnormal
exit or timeout), after each of the first 5 failures the PreStart fail
counter equals the number of failures so far and the unit is back in
PreStart for a retry; the 6th failure drives the counter past 5 and the
unit reaches Maintenance. -/
theorem c8_prestart_six_failures_reach_maintenance :
    ∀ m1 m2 m3 m4 m5 m6 : fail_mode_t,
      (c8_state_after [m1, m2, m3, m4, m5, m6] = some .UMaintenance
        ∧ c8_cnt_after [m1, m2, m3, m4, m5, m6] = some 6)
      ∧ ∀ k : Fin 5,
          c8_state_after (List.take (k.val + 1) [m1, m2, m3, m4, m5, m6])
            = some .US_PRESTART
          ∧ c8_cnt_after (List.take (k.val + 1) [m1, m2, m3, m4, m5, m6])
            = some (k.val + 1) := by
  intro m1 m2 m3 m4 m5 m6
  cases m1 <;> cases m2 <;> cases m3 <;> cases m4 <;> cases m5 <;>
    cases m6 <;> exact ⟨by decide, by decide⟩

/-! ## C9: unit_retry_start -/

/-- A unit sitting in PreStart with no remaining pids, about to be retried;
one pid is queued for the restart. -/
def c9_state : MState :=
  { unit := { c8_unit with state := .US_PRESTART }, next_timer := 1,
    fork_queue := [21], effects := [] }

/-- C9: the claim states that unit_retry_start (unit, msec) schedules
unit_restart_begin_cb after msec milliseconds, 5000 on the failure-retry
path. The code does set target to None, purge, and schedule
unit_restart_begin_cb (which re-enters PreStart), but the delay is the
hard-coded 500: the result is independent of the msecs argument, and the
concrete call with 5000 registers its timer with delay 500. -/
theorem c9_retry_start_ignores_msecs :
    (∀ (st : MState) (m1 m2 fuel : Nat),
      unit_retry_start st m1 fuel = unit_retry_start st m2 fuel)
    ∧ ((unit_retry_start c9_state 5000 50).map
        fun st => (st.unit.state, st.unit.target, st.effects))
        = some (.UNone, .UNone, [.timer_add 1 500 .restart_begin])
    ∧ (((unit_retry_start c9_state 5000 50).bind
        fun st => unit_restart_begin_cb st 50 st.unit.meth_restart_timer_id).map
          fun st => st.unit.state) = some .US_PRESTART :=
  ⟨fun _ _ _ _ => rfl, by decide, by decide⟩

/-! ## C10: unit_enter_online does not assign the state field -/

def c10_unit : Unit_t :=
  { c8_unit with
    state := .US_POSTSTART
    secondary_pid := 7
    main_pid := 3 }

def c10_st : MState :=
  { unit := c10_unit, next_timer := 1, fork_queue := [], effects := [] }

/-- C10: unit_enter_online never assigns unit->state: directly, through
unit_enter_state with target Online, and on a successful PostStart
completion in unit_ptevent, the unit keeps its previous state value (in
the PostStart case it remains US_POSTSTART rather than becoming an Online
value). -/
theorem c10_enter_online_keeps_state :
    (∀ st : MState, (unit_enter_online st).unit = st.unit)
    ∧ (∀ (st : MState) (fuel : Nat) (st1 : MState),
        unit_enter_state st (fuel + 1) .UOnline = some st1 →
        st1.unit.state = st.unit.state)
    ∧ (∀ (st : MState) (fuel : Nat) (pid : Nat) (st1 : MState),
        st.unit.state = .US_POSTSTART → pid = st.unit.secondary_pid →
        pid ≠ st.unit.main_pid →
        unit_ptevent st fuel pid .ev_exit false = some st1 →
        st1.unit.state = .US_POSTSTART) := by
  have h1 : ∀ st : MState, (unit_enter_online st).unit = st.unit := by
    intro st
    by_cases h : st.unit.is_repo <;> simp [unit_enter_online, emit, h]
  refine ⟨h1, ?_, ?_⟩
  · intro st fuel st1 h
    have h2 : unit_enter_state st (fuel + 1) .UOnline =
        some (unit_enter_online st) := rfl
    rw [h2] at h
    obtain rfl : unit_enter_online st = st1 := by simpa using h
    rw [h1 st]
  · intro st fuel pid st1 hstate hsec hmain h
    rw [unit_ptevent] at h
    simp only [unit_deregister_pid, unit_stopping, timerset_del, emit,
      hstate, ← hsec] at h
    simp [hmain, hstate] at h
    by_cases ht : st.unit.timer_id = 0
    · simp [ht] at h
      rw [← h, h1]
    · simp [ht] at h
      rw [← h, h1]

/-- Witness for C10 at a concrete input: the secondary pid of a unit in
PostStart exits normally and the unit stays in state US_POSTSTART. -/
theorem c10_enter_online_keeps_state_witness :
    ((unit_ptevent c10_st 5 7 .ev_exit false).map fun st => st.unit.state)
      = some .US_POSTSTART := by
  cases hx : unit_ptevent c10_st 5 7 .ev_exit false with
  | none => exact absurd hx (by decide)
  | some st1 =>
      have hs := c10_enter_online_keeps_state.2.2 c10_st 5 7 st1 rfl rfl
        (by decide) hx
      simp [hs]

end ServiceManager
